import Mathlib

/-!
Verification of the MCP data-analytics tool server (src/server.py).

The Python module defines a set of independent tool handlers.  Each handler
is a `try`-block that validates its inputs, calls library operations
(pandas, plotly, httpx, BeautifulSoup, PyPDF2), and returns
`ResponseFormatter.success(data, message)`; its `except`-block returns
`ResponseFormatter.error(str(e))`.

Shallow embedding used here:
  * the filesystem is an association list from path strings to files
    (a file holds its raw bytes plus stat metadata);
  * Python exceptions are the `Exc` type and a fallible computation is an
    `Except Exc` value; a handler body computes `(data, message, new fs)`
    and the `runTool` wrapper is the module-wide try/except pattern;
  * the wrapped third-party library operations (CSV/Excel/JSON parsing,
    pivoting, figure building, HTTP fetching, HTML parsing, PDF text
    extraction, text codecs) are opaque oracle fields of a `Libs`
    structure, since their code is not part of this repository; all the
    validation and control flow around them is translated from
    src/server.py;
  * `datetime.now().isoformat()` is passed in as an opaque string `now`.
-/

/-- JSON-like values: the payloads stored in envelopes, option maps,
and the values produced by the wrapped dataframe library. -/
inductive JVal where
  | null : JVal
  | bool (b : Bool) : JVal
  | num (n : Int) : JVal
  | str (s : String) : JVal
  | arr (xs : List JVal) : JVal
  | obj (kvs : List (String × JVal)) : JVal

/-- Python exceptions raised inside handler bodies.  `str(e)` on the
exception objects used by the server yields exactly the message string. -/
inductive Exc where
  | fileNotFound (msg : String) : Exc
  | valueError (msg : String) : Exc
  | fileExists (msg : String) : Exc
  | other (msg : String) : Exc

/-- The message of an exception, i.e. Python `str(e)`. -/
def Exc.str : Exc → String
  | .fileNotFound m => m
  | .valueError m => m
  | .fileExists m => m
  | .other m => m

/-- A pandas DataFrame, abstracted to its column labels and rows of cells.
Only the shape and the column labels are inspected by the server's own
logic; all numeric/statistical work happens inside oracle calls. -/
structure DataFrame where
  columns : List String
  rows : List (List JVal)

/-- A file on disk: raw byte content plus the stat metadata the server
reads.  `ctime`/`mtime` stand for the already-ISO-formatted timestamps. -/
structure File where
  bytes : List Nat
  ctime : String
  mtime : String
  isDir : Bool

/-- The filesystem: an association list from absolute path strings to
files.  Directory creation (`mkdir(parents=True, exist_ok=True)`) never
touches any file entry, so it is a no-op on this state. -/
structure FS where
  entries : List (String × File)

/-- Look up a path. -/
def FS.find? (fs : FS) (p : String) : Option File :=
  (fs.entries.find? (fun e => e.1 = p)).map (fun e => e.2)

/-- Python `path.exists()`. -/
def FS.exists (fs : FS) (p : String) : Bool :=
  (fs.find? p).isSome

/-- Write a file at a path, replacing any previous entry. -/
def FS.insert (fs : FS) (p : String) (f : File) : FS :=
  ⟨(p, f) :: fs.entries.filter (fun e => ¬ e.1 = p)⟩

/-- An httpx response after `raise_for_status()` succeeded. -/
structure HttpResp where
  text : String
  content : List Nat
  headers : List (String × String)
  jsonVal : Except Exc JVal

/-- An opaque plotly figure. -/
structure Fig where
  tag : Nat

/-- Result of `df.pivot_table(...)`: its serializations and shape. -/
structure PivotResult where
  toDict : JVal
  perFunc : String → JVal
  shape : Nat × Nat

/-- Oracles for the wrapped third-party libraries.  Each field models one
library entry point used by src/server.py; fallible ones return
`Except Exc`. -/
structure Libs where
  decodeUtf8 : List Nat → Except Exc String
  encodeText : String → String → Except Exc (List Nat)
  readCsv : List Nat → Except Exc DataFrame
  readExcel : List Nat → Except Exc DataFrame
  readJsonDf : List Nat → Except Exc DataFrame
  extractPdf : List Nat → Except Exc String
  dtypesDict : DataFrame → JVal
  numericDescribe : DataFrame → Option JVal
  isnullDict : DataFrame → JVal
  headRecords : DataFrame → JVal
  tailRecords : DataFrame → JVal
  pivotTable : DataFrame → List String → List String → String → List String →
    Option Int → Except Exc PivotResult
  pxBar : DataFrame → String → String → List (String × JVal) → Except Exc Fig
  pxLine : DataFrame → String → String → List (String × JVal) → Except Exc Fig
  pxScatter : DataFrame → String → String → List (String × JVal) → Except Exc Fig
  pxPie : DataFrame → String → String → List (String × JVal) → Except Exc Fig
  pxHistogram : DataFrame → String → List (String × JVal) → Except Exc Fig
  pxBox : DataFrame → String → Option String → List (String × JVal) → Except Exc Fig
  updateLayout : Fig → String → String → Fig
  renderHtml : Fig → List Nat
  httpGet : String → List (String × JVal) → Except Exc HttpResp
  soupText : String → String
  soupSelect : String → String → Except Exc (List String)
  soupTitle : String → Option (Option String)
  toJson : DataFrame → List (String × JVal) → Except Exc (List Nat)
  toCsv : DataFrame → List (String × JVal) → Except Exc (List Nat)
  toExcel : DataFrame → List (String × JVal) → Except Exc (List Nat)
  toParquet : DataFrame → List (String × JVal) → Except Exc (List Nat)

/-- The response dictionary returned by every handler.  Both
`ResponseFormatter` variants populate only their own keys, so every key a
variant never sets is modelled as `none`. -/
structure Response where
  success : Bool
  data : Option JVal
  message : Option String
  error : Option String
  details : Option String
  timestamp : String

/-- ResponseFormatter.success (src/server.py lines 56-64). -/
def ResponseFormatter.success (data : JVal) (message : String) (now : String) : Response :=
  { success := true, data := some data, message := some message,
    error := none, details := none, timestamp := now }

/-- ResponseFormatter.error (src/server.py lines 66-74); `details`
defaults to the empty string. -/
def ResponseFormatter.error (error : String) (details : String) (now : String) : Response :=
  { success := false, data := none, message := none,
    error := some error, details := some details, timestamp := now }

/-- A single-quote character, written via its code point so the source
messages that quote their arguments can be reproduced verbatim. -/
def squo : String :=
  String.singleton (Char.ofNat 39)

/-- Python `repr` of a list of strings, as interpolated into f-strings,
e.g. `[` `mean` `]` with each element single-quoted. -/
def pyListRepr (xs : List String) : String :=
  "[" ++ String.intercalate (", ") (xs.map (fun x => squo ++ x ++ squo)) ++ "]"

/-- Lower-casing, for Python `str.lower()` on extension strings. -/
def strLower (s : String) : String :=
  ⟨s.data.map Char.toLower⟩

/-- Python `s[:n]` for a non-negative bound: the first `n` characters. -/
def pyTake (s : String) (n : Nat) : String :=
  ⟨s.data.take n⟩

/-- Python `s[:L]` for an arbitrary integer bound: a negative bound drops
characters from the end. -/
def pySliceTo (s : String) (L : Int) : String :=
  if 0 ≤ L then pyTake s L.toNat else pyTake s (s.length - L.natAbs)

/-- The reversed characters of the extension body: the trailing run of
characters of the path that contains neither a dot nor a slash. -/
def extRun (p : String) : List Char :=
  p.data.reverse.takeWhile (fun c => ¬ (c = Char.ofNat 46 ∨ c = Char.ofNat 47))

/-- The reversed characters of the path before the extension body. -/
def extRest (p : String) : List Char :=
  p.data.reverse.dropWhile (fun c => ¬ (c = Char.ofNat 46 ∨ c = Char.ofNat 47))

/-- True when a reversed prefix-of-path is nonempty and does not abut a
directory separator, i.e. the dot found belongs to a real file stem. -/
def stemSide : List Char → Bool
  | [] => false
  | b :: _ => if b = Char.ofNat 47 then false else true

/-- Split a path string into stem (directories included) and extension,
following `pathlib`: the extension is the part of the final component
from its last dot on, empty when the final component has no dot, starts
with its only dot, or ends with its only dot. -/
def splitExt (p : String) : String × String :=
  match extRest p with
  | c :: r =>
    if c = Char.ofNat 46 ∧ extRun p ≠ [] ∧ stemSide r = true then
      (⟨r.reverse⟩, ⟨Char.ofNat 46 :: (extRun p).reverse⟩)
    else (p, "")
  | [] => (p, "")

/-- Python `Path(p).suffix`. -/
def Path.suffix (p : String) : String :=
  (splitExt p).2

/-- Python `Path(p).with_suffix(newExt)` rendered as a string. -/
def Path.withSuffix (p : String) (newExt : String) : String :=
  (splitExt p).1 ++ newExt

/-- Python `Path(p).name`: the final path component. -/
def Path.name (p : String) : String :=
  ⟨(p.data.reverse.takeWhile (fun c => ¬ c = Char.ofNat 47)).reverse⟩

/-- Round half to even, the rounding used by Python float formatting. -/
def rhe (q : Rat) : Int :=
  if q - (⌊q⌋ : Rat) < (1 : Rat) / 2 then ⌊q⌋
  else if (1 : Rat) / 2 < q - (⌊q⌋ : Rat) then ⌊q⌋ + 1
  else if ⌊q⌋ % 2 = 0 then ⌊q⌋ else ⌊q⌋ + 1

/-- Python `f-string` formatting with `:.1f`: one digit after the decimal
point, half-to-even rounding.  (All values the server formats are exact
binary rationals, on which float formatting agrees with the rational.) -/
def formatFixed1 (q : Rat) : String :=
  toString (rhe (q * 10) / 10) ++ "." ++ toString (rhe (q * 10) % 10)

/-- The loop of `_format_file_size` over the unit list. -/
def formatLoop : Rat → List String → String
  | q, [] => formatFixed1 q ++ " TB"
  | q, unit :: rest =>
    if q < 1024 then formatFixed1 q ++ " " ++ unit else formatLoop (q / 1024) rest

/-- The helper _format_file_size (src/server.py lines 478-484). -/
def format_file_size (size_bytes : Nat) : String :=
  formatLoop (size_bytes : Rat) ["B", "KB", "MB", "GB"]

/-- The module-wide handler pattern: the `try` body computes data,
message and the new filesystem; the `except` arm catches any exception
and returns `ResponseFormatter.error(str(e))`, leaving the filesystem as
the body left it (no body below performs a write that a later raise could
follow, so threading the original state on error is exact). -/
def runTool (now : String) (fs : FS) (body : Except Exc (JVal × String × FS)) :
    Response × FS :=
  match body with
  | .ok (d, m, fs2) => (ResponseFormatter.success d m now, fs2)
  | .error e => (ResponseFormatter.error (Exc.str e) "" now, fs)

/-- FileHandler.validate_file_exists (src/server.py lines 26-30). -/
def validate_file_exists (fs : FS) (p : String) : Except Exc Unit :=
  if fs.exists p then .ok () else
    .error (.fileNotFound ("El archivo " ++ p ++ " no existe"))

/-- FileHandler.read_dataframe (src/server.py lines 32-44): existence
check, then parser selection by lower-cased extension. -/
def read_dataframe (libs : Libs) (fs : FS) (p : String) : Except Exc DataFrame :=
  match fs.find? p with
  | none => .error (.fileNotFound ("El archivo " ++ p ++ " no existe"))
  | some f =>
    if strLower (Path.suffix p) = ".csv" then libs.readCsv f.bytes
    else if strLower (Path.suffix p) = ".xlsx" ∨ strLower (Path.suffix p) = ".xls" then
      libs.readExcel f.bytes
    else if strLower (Path.suffix p) = ".json" then libs.readJsonDf f.bytes
    else .error (.valueError ("Formato no soportado: " ++ Path.suffix p))

/-- FileHandler.validate_columns (src/server.py lines 46-51). -/
def validate_columns (df : DataFrame) (cols : List String) : Except Exc Unit :=
  if (cols.filter (fun c => ¬ df.columns.contains c)) = [] then .ok ()
  else
    .error (.valueError ("Columnas no encontradas: " ++
      String.intercalate (", ") (cols.filter (fun c => ¬ df.columns.contains c))))

/-- Read a file's text (`path.read_text(encoding="utf-8")`): decoding the
bytes, after the check the OS performs that the path is not a directory. -/
def readTextFile (libs : Libs) (f : File) : Except Exc String :=
  if f.isDir then .error (.other ("Is a directory")) else libs.decodeUtf8 f.bytes

/-- Read a file's raw bytes (`open(path, "rb")` and full read). -/
def readBytesFile (f : File) : Except Exc (List Nat) :=
  if f.isDir then .error (.other ("Is a directory")) else .ok f.bytes

/-- Python list indexing `xs[i]`, raising IndexError out of range. -/
def pyIndex (xs : List String) (i : Nat) : Except Exc String :=
  match xs.get? i with
  | some x => .ok x
  | none => .error (.other ("list index out of range"))

/-- Python `d[k]` on a decoded JSON value: KeyError when the key is
missing, TypeError when the value is not an object. -/
def jGet (v : JVal) (k : String) : Except Exc JVal :=
  match v with
  | .obj kvs =>
    match kvs.find? (fun kv => kv.1 = k) with
    | some kv => .ok kv.2
    | none => .error (.other ("KeyError: " ++ k))
  | _ => .error (.other ("TypeError: not a dict"))

/-- Python `d.get(k, default)` on a decoded JSON value. -/
def jGetD (v : JVal) (k : String) (d : JVal) : Except Exc JVal :=
  match v with
  | .obj kvs =>
    match kvs.find? (fun kv => kv.1 = k) with
    | some kv => .ok kv.2
    | none => .ok d
  | _ => .error (.other ("TypeError: not a dict"))

/-- The elements of a decoded JSON array, TypeError otherwise (a Python
`for` over a non-list). -/
def jItems (v : JVal) : Except Exc (List JVal) :=
  match v with
  | .arr xs => .ok xs
  | _ => .error (.other ("TypeError: not iterable"))

/-- Lookup in an HTTP header list with a default
(`response.headers.get(k, default)`). -/
def headersGet (hs : List (String × String)) (k : String) (d : String) : String :=
  match hs.find? (fun kv => kv.1 = k) with
  | some kv => kv.2
  | none => d

/-- Normalization applied by the pivot handler to its
`Union[str, List[str]]` arguments. -/
inductive StrOrList where
  | one (s : String) : StrOrList
  | many (xs : List String) : StrOrList

/-- The `isinstance(x, str)` normalization: a bare string becomes a
one-element list. -/
def normalizeSL : StrOrList → List String
  | .one s => [s]
  | .many xs => xs

/-- analizar_archivo (src/server.py lines 77-107). -/
def analizar_archivo (libs : Libs) (now : String) (archivo : String) (fs : FS) :
    Response × FS :=
  runTool now fs (
    match fs.find? archivo with
    | none => .error (.fileNotFound ("El archivo " ++ archivo ++ " no existe"))
    | some f =>
      let base : List (String × JVal) :=
        [("nombre", .str (Path.name archivo)),
         ("extension", .str (Path.suffix archivo)),
         ("tamaño_bytes", .num (f.bytes.length : Int)),
         ("tamaño_legible", .str (format_file_size f.bytes.length)),
         ("fecha_creacion", .str f.ctime),
         ("fecha_modificacion", .str f.mtime),
         ("es_archivo", .bool (¬ f.isDir)),
         ("es_directorio", .bool f.isDir)]
      let data : List (String × JVal) :=
        if ¬ f.isDir ∧ strLower (Path.suffix archivo) ∈ [".txt", ".md", ".py", ".json"] ∧
            f.bytes.length < 10000 then
          base ++ [("contenido_preview", .str (
            match readTextFile libs f with
            | .ok s => pyTake s 1000
            | .error _ => "No se pudo leer el contenido"))]
        else base
      .ok (.obj data,
           "Archivo " ++ Path.name archivo ++ " analizado exitosamente", fs))

/-- crear_archivo (src/server.py lines 109-126). -/
def crear_archivo (libs : Libs) (now : String) (ruta contenido encoding : String)
    (fs : FS) : Response × FS :=
  runTool now fs (
    match libs.encodeText contenido encoding with
    | .error e => .error e
    | .ok bs =>
      .ok (.obj [("ruta", .str ruta), ("tamaño", .num (bs.length : Int))],
           "Archivo " ++ Path.name ruta ++ " creado exitosamente",
           fs.insert ruta ⟨bs, now, now, false⟩))

/-- The content-selection part of leer_documento: PDF extraction for
`.pdf`, UTF-8 text for the plain-text extensions, ValueError otherwise. -/
def leer_contenido (libs : Libs) (ruta : String) (f : File) : Except Exc String :=
  if strLower (Path.suffix ruta) = ".pdf" then
    match readBytesFile f with
    | .ok bs => libs.extractPdf bs
    | .error e => .error e
  else if strLower (Path.suffix ruta) ∈ [".txt", ".md", ".csv", ".json", ".py"] then
    readTextFile libs f
  else .error (.valueError ("Formato no soportado: " ++ Path.suffix ruta))

/-- leer_documento (src/server.py lines 129-158). -/
def leer_documento (libs : Libs) (now : String) (ruta : String)
    (limite_caracteres : Int) (fs : FS) : Response × FS :=
  runTool now fs (
    match fs.find? ruta with
    | none => .error (.fileNotFound ("El archivo " ++ ruta ++ " no existe"))
    | some f =>
      match leer_contenido libs ruta f with
      | .error e => .error e
      | .ok contenido =>
        .ok (.obj [("contenido", .str (pySliceTo contenido limite_caracteres)),
                   ("longitud_total", .num (contenido.length : Int)),
                   ("longitud_retornada",
                    .num ((pySliceTo contenido limite_caracteres).length : Int)),
                   ("fue_truncado",
                    .bool (decide ((contenido.length : Int) > limite_caracteres)))],
             "Documento " ++ Path.name ruta ++ " leído exitosamente", fs))

/-- analizar_datos (src/server.py lines 161-203). -/
def analizar_datos (libs : Libs) (now : String) (ruta_archivo : String)
    (incluir_muestra : Bool) (fs : FS) : Response × FS :=
  runTool now fs (
    match read_dataframe libs fs ruta_archivo with
    | .error e => .error e
    | .ok df =>
      .ok (.obj [("info_basica", .obj
                   [("filas", .num (df.rows.length : Int)),
                    ("columnas", .num (df.columns.length : Int)),
                    ("lista_columnas", .arr (df.columns.map .str)),
                    ("tipos_datos", libs.dtypesDict df)]),
                 ("estadisticas_numericas",
                  match libs.numericDescribe df with
                  | some stats => stats
                  | none => .obj []),
                 ("valores_faltantes", libs.isnullDict df),
                 ("muestra_datos",
                  if incluir_muestra then
                    .obj [("primeras_5_filas", libs.headRecords df),
                          ("ultimas_5_filas", libs.tailRecords df)]
                  else .obj [])],
           "Análisis de " ++ Path.name ruta_archivo ++ " completado", fs))

/-- The fixed aggregation allow-list (src/server.py line 231). -/
def funciones_validas : List String :=
  ["mean", "sum", "min", "max", "count", "std", "var", "median"]

/-- tabla_dinamica_avanzada (src/server.py lines 205-266). -/
def tabla_dinamica_avanzada (libs : Libs) (now : String) (ruta_archivo : String)
    (index_cols columns_cols : StrOrList) (values_col : String)
    (aggfunc : StrOrList) (fill_value : Option Int) (fs : FS) : Response × FS :=
  runTool now fs (
    match read_dataframe libs fs ruta_archivo with
    | .error e => .error e
    | .ok df =>
      match validate_columns df
          (normalizeSL index_cols ++ normalizeSL columns_cols ++ [values_col]) with
      | .error e => .error e
      | .ok _ =>
        if (normalizeSL aggfunc).filter
            (fun f => ¬ funciones_validas.contains f) = [] then
          match libs.pivotTable df (normalizeSL index_cols) (normalizeSL columns_cols)
              values_col (normalizeSL aggfunc) fill_value with
          | .error e => .error e
          | .ok pt =>
            .ok (.obj [("tabla_dinamica",
                        if (normalizeSL aggfunc).length = 1 then pt.toDict
                        else .obj ((normalizeSL aggfunc).map
                          (fun fn => (fn, pt.perFunc fn)))),
                       ("metadata", .obj
                         [("index_columnas", .arr ((normalizeSL index_cols).map .str)),
                          ("columnas_pivote", .arr ((normalizeSL columns_cols).map .str)),
                          ("columna_valores", .str values_col),
                          ("funciones_agregacion", .arr ((normalizeSL aggfunc).map .str)),
                          ("dimensiones", .arr [.num (pt.shape.1 : Int),
                                                .num (pt.shape.2 : Int)])])],
                 "Tabla dinámica creada exitosamente", fs)
        else
          .error (.valueError ("Funciones no válidas: " ++
            pyListRepr ((normalizeSL aggfunc).filter
              (fun f => ¬ funciones_validas.contains f)) ++
            ". Use: " ++ pyListRepr funciones_validas)))

/-- The chart configuration dictionary: the keys the handler reads.
`columnas = none` models a dictionary without the key. -/
structure ChartConfig where
  columnas : Option (List String)
  titulo : Option String
  template : Option String
  extraParams : List (String × JVal)

/-- The fixed chart-kind allow-list (src/server.py line 509). -/
def tipos_soportados : List String :=
  ["bar", "line", "scatter", "pie", "histogram", "box"]

/-- The helper _create_plotly_figure (src/server.py lines 492-510): dispatch on the
chart kind, indexing into the column list like the Python code does. -/
def create_plotly_figure (libs : Libs) (df : DataFrame) (tipo : String)
    (columnas : List String) (extra : List (String × JVal)) : Except Exc Fig :=
  if tipo = "bar" then
    match pyIndex columnas 0, pyIndex columnas 1 with
    | .ok x, .ok y => libs.pxBar df x y extra
    | .error e, _ => .error e
    | _, .error e => .error e
  else if tipo = "line" then
    match pyIndex columnas 0, pyIndex columnas 1 with
    | .ok x, .ok y => libs.pxLine df x y extra
    | .error e, _ => .error e
    | _, .error e => .error e
  else if tipo = "scatter" then
    match pyIndex columnas 0, pyIndex columnas 1 with
    | .ok x, .ok y => libs.pxScatter df x y extra
    | .error e, _ => .error e
    | _, .error e => .error e
  else if tipo = "pie" then
    match pyIndex columnas 0, pyIndex columnas 1 with
    | .ok x, .ok y => libs.pxPie df x y extra
    | .error e, _ => .error e
    | _, .error e => .error e
  else if tipo = "histogram" then
    match pyIndex columnas 0 with
    | .ok x => libs.pxHistogram df x extra
    | .error e => .error e
  else if tipo = "box" then
    match pyIndex columnas 0 with
    | .ok x => libs.pxBox df x (columnas.get? 1) extra
    | .error e => .error e
  else
    .error (.valueError ("Tipo " ++ squo ++ tipo ++ squo ++ " no soportado. Use: " ++
      pyListRepr tipos_soportados))

/-- crear_visualizacion (src/server.py lines 269-307): the output HTML
file is written beside the input, extension replaced by `.html`. -/
def crear_visualizacion (libs : Libs) (now : String) (ruta_archivo : String)
    (tipo_grafico : String) (configuracion : ChartConfig) (fs : FS) :
    Response × FS :=
  runTool now fs (
    match read_dataframe libs fs ruta_archivo with
    | .error e => .error e
    | .ok df =>
      match configuracion.columnas with
      | none =>
        .error (.valueError ("Debe especificar " ++ squo ++ "columnas" ++ squo ++
          " en la configuración"))
      | some columnas =>
        match validate_columns df columnas with
        | .error e => .error e
        | .ok _ =>
          match create_plotly_figure libs df tipo_grafico columnas
              configuracion.extraParams with
          | .error e => .error e
          | .ok fig =>
            .ok (.obj [("archivo_salida", .str (Path.withSuffix ruta_archivo (".html"))),
                       ("tipo_grafico", .str tipo_grafico),
                       ("columnas_utilizadas", .arr (columnas.map .str))],
                 "Visualización " ++ tipo_grafico ++ " creada exitosamente",
                 fs.insert (Path.withSuffix ruta_archivo (".html"))
                   ⟨libs.renderHtml (libs.updateLayout fig
                      (match configuracion.titulo with
                       | some t => t
                       | none => "Gráfico " ++ tipo_grafico)
                      (match configuracion.template with
                       | some t => t
                       | none => "plotly")),
                    now, now, false⟩))

/-- The per-repository record built by buscar_repositorios_github. -/
def repoRecord (repo : JVal) : Except Exc JVal :=
  match jGet repo ("full_name"), jGet repo ("html_url"), jGet repo ("stargazers_count"),
      jGet repo ("forks_count"), jGet repo ("updated_at") with
  | .ok fn, .ok u, .ok stars, .ok forks, .ok upd =>
    (match jGetD repo ("description") (.str ("Sin descripción")),
        jGetD repo ("language") (.str ("No especificado")),
        jGetD repo ("topics") (.arr []) with
     | .ok desc, .ok lang, .ok topics =>
       .ok (JVal.obj [("nombre_completo", fn), ("descripcion", desc), ("url", u),
                      ("estrellas", stars), ("forks", forks), ("lenguaje", lang),
                      ("actualizado", upd), ("temas", topics)])
     | .error e, _, _ => .error e
     | _, .error e, _ => .error e
     | _, _, .error e => .error e)
  | .error e, _, _, _, _ => .error e
  | _, .error e, _, _, _ => .error e
  | _, _, .error e, _, _ => .error e
  | _, _, _, .error e, _ => .error e
  | _, _, _, _, .error e => .error e

/-- buscar_repositorios_github (src/server.py lines 310-356). -/
def buscar_repositorios_github (libs : Libs) (now : String)
    (query sort ord : String) (per_page : Int) (fs : FS) : Response × FS :=
  runTool now fs (
    match libs.httpGet ("https://api.github.com/search/repositories")
        [("q", .str query), ("sort", .str sort), ("order", .str ord),
         ("per_page", .num (min per_page 100))] with
    | .error e => .error e
    | .ok resp =>
      match resp.jsonVal with
      | .error e => .error e
      | .ok dataJson =>
        match jGetD dataJson ("items") (.arr []) with
        | .error e => .error e
        | .ok items =>
          match jItems items with
          | .error e => .error e
          | .ok itemList =>
            match itemList.mapM repoRecord with
            | .error e => .error e
            | .ok repositorios =>
              match jGet dataJson ("total_count") with
              | .error e => .error e
              | .ok total =>
                .ok (.obj [("repositorios", .arr repositorios),
                           ("total_encontrados", total),
                           ("query_utilizada", .str query)],
                     "Se encontraron " ++ toString repositorios.length ++
                       " repositorios", fs))

/-- extraer_contenido_web (src/server.py lines 358-386): full-page or
CSS-selected text, capped at 10000 characters in the returned data. -/
def extraer_contenido_web (libs : Libs) (now : String) (url : String)
    (selector_css : Option String) (fs : FS) : Response × FS :=
  runTool now fs (
    match libs.httpGet url [] with
    | .error e => .error e
    | .ok resp =>
      let contRes : Except Exc String :=
        match selector_css with
        | some sel =>
          (match libs.soupSelect resp.text sel with
           | .ok textos => .ok (String.intercalate ("\n") textos)
           | .error e => .error e)
        | none => .ok (libs.soupText resp.text)
      match contRes with
      | .error e => .error e
      | .ok contenido =>
        .ok (.obj [("url", .str url),
                   ("contenido", .str (pyTake contenido 10000)),
                   ("longitud_total", .num (contenido.length : Int)),
                   ("titulo",
                    match libs.soupTitle resp.text with
                    | none => .str ("Sin título")
                    | some none => .null
                    | some (some t) => .str t),
                   ("selector_usado",
                    match selector_css with
                    | some s => .str s
                    | none => .null)],
             "Contenido web extraído exitosamente", fs))

/-- descargar_archivo_web (src/server.py lines 388-420). -/
def descargar_archivo_web (libs : Libs) (now : String) (url : String)
    (ruta_destino : String) (sobrescribir : Bool) (fs : FS) : Response × FS :=
  runTool now fs (
    if fs.exists ruta_destino = true ∧ sobrescribir = false then
      .error (.fileExists ("El archivo " ++ ruta_destino ++
        " ya existe. Use sobrescribir=True para reemplazarlo"))
    else
      match libs.httpGet url [] with
      | .error e => .error e
      | .ok resp =>
        .ok (.obj [("url", .str url),
                   ("archivo_destino", .str ruta_destino),
                   ("tamaño_bytes", .num (resp.content.length : Int)),
                   ("tamaño_legible", .str (format_file_size resp.content.length)),
                   ("tipo_contenido",
                    .str (headersGet resp.headers ("content-type") ("desconocido")))],
             "Archivo descargado exitosamente",
             fs.insert ruta_destino ⟨resp.content, now, now, false⟩))

/-- The per-format default option maps of convertir_formato_datos
(src/server.py lines 440-445), with `.get(formato, {})`. -/
def defaultOpts (formato : String) : List (String × JVal) :=
  if formato = "json" then [("orient", .str ("records")), ("indent", .num 2)]
  else if formato = "csv" then [("index", .bool false), ("encoding", .str ("utf-8"))]
  else if formato = "xlsx" then [("index", .bool false)]
  else if formato = "parquet" then [("index", .bool false)]
  else []

/-- Dictionary merge `{**defaults, **caller}`: caller-supplied keys win. -/
def mergeOpts (defaults caller : List (String × JVal)) : List (String × JVal) :=
  defaults.filter (fun d => ¬ caller.any (fun c => c.1 = d.1)) ++ caller

/-- The format dispatch of convertir_formato_datos (src/server.py lines
450-461): the bytes the chosen pandas writer produces, or ValueError for
an unsupported target format. -/
def convert_write (libs : Libs) (df : DataFrame) (formato : String)
    (opts : List (String × JVal)) : Except Exc (List Nat) :=
  if formato = "json" then libs.toJson df opts
  else if formato = "csv" then libs.toCsv df opts
  else if formato = "xlsx" then libs.toExcel df opts
  else if formato = "parquet" then libs.toParquet df opts
  else
    .error (.valueError ("Formato " ++ squo ++ formato ++ squo ++
      " no soportado. Use: " ++ pyListRepr ["json", "csv", "xlsx", "parquet"]))

/-- convertir_formato_datos (src/server.py lines 423-475): the output is
written at the input path with its extension replaced by the target
format's extension. -/
def convertir_formato_datos (libs : Libs) (now : String) (archivo_entrada : String)
    (formato_salida : String) (opciones : Option (List (String × JVal))) (fs : FS) :
    Response × FS :=
  runTool now fs (
    match read_dataframe libs fs archivo_entrada with
    | .error e => .error e
    | .ok df =>
      match convert_write libs df formato_salida
          (mergeOpts (defaultOpts formato_salida)
            (match opciones with | some o => o | none => [])) with
      | .error e => .error e
      | .ok bs =>
        .ok (.obj [("archivo_entrada", .str archivo_entrada),
                   ("archivo_salida",
                    .str (Path.withSuffix archivo_entrada ("." ++ formato_salida))),
                   ("formato_origen", .str (Path.suffix archivo_entrada)),
                   ("formato_destino", .str ("." ++ formato_salida)),
                   ("filas_procesadas", .num (df.rows.length : Int))],
             "Conversión a " ++ formato_salida ++ " completada",
             fs.insert (Path.withSuffix archivo_entrada ("." ++ formato_salida))
               ⟨bs, now, now, false⟩))

/-- One invocation request for any of the ten registered tools, with the
arguments of the matching handler. -/
inductive ToolCall where
  | analizarArchivo (archivo : String) : ToolCall
  | crearArchivo (ruta contenido encoding : String) : ToolCall
  | leerDocumento (ruta : String) (limite : Int) : ToolCall
  | analizarDatos (ruta : String) (incluirMuestra : Bool) : ToolCall
  | tablaDinamica (ruta : String) (indexCols columnsCols : StrOrList)
      (valuesCol : String) (aggfunc : StrOrList) (fillValue : Option Int) : ToolCall
  | crearVisualizacion (ruta tipo : String) (config : ChartConfig) : ToolCall
  | buscarRepositorios (query sort ord : String) (perPage : Int) : ToolCall
  | extraerContenido (url : String) (selector : Option String) : ToolCall
  | descargarArchivo (url destino : String) (sobrescribir : Bool) : ToolCall
  | convertirFormato (entrada formato : String)
      (opciones : Option (List (String × JVal))) : ToolCall

/-- The dispatcher: route a tool invocation to its handler.  Handler
lookup by name and argument coercion are performed by the external agent
framework; this models the registry of src/server.py after registration. -/
def dispatch (libs : Libs) (now : String) (call : ToolCall) (fs : FS) :
    Response × FS :=
  match call with
  | .analizarArchivo a => analizar_archivo libs now a fs
  | .crearArchivo r c e => crear_archivo libs now r c e fs
  | .leerDocumento r l => leer_documento libs now r l fs
  | .analizarDatos r m => analizar_datos libs now r m fs
  | .tablaDinamica r ic cc vc ag fv => tabla_dinamica_avanzada libs now r ic cc vc ag fv fs
  | .crearVisualizacion r t c => crear_visualizacion libs now r t c fs
  | .buscarRepositorios q s o pp => buscar_repositorios_github libs now q s o pp fs
  | .extraerContenido u s => extraer_contenido_web libs now u s fs
  | .descargarArchivo u d o => descargar_archivo_web libs now u d o fs
  | .convertirFormato e f o => convertir_formato_datos libs now e f o fs

/-- Field lookup inside an object payload. -/
def jObjGet : JVal → String → Option JVal
  | .obj kvs, k => (kvs.find? (fun kv => kv.1 = k)).map (fun kv => kv.2)
  | _, _ => none

/-- A named field of a success envelope's data object, when present. -/
def Response.dataField (r : Response) (k : String) : Option JVal :=
  match r.data with
  | some j => jObjGet j k
  | none => none

/-- A well-formed Success envelope: exactly the keys
{success=true, data, message, timestamp}. -/
def isSuccessE (r : Response) : Prop :=
  r.success = true ∧ (∃ d, r.data = some d) ∧ (∃ m, r.message = some m) ∧
    r.error = none ∧ r.details = none

/-- A well-formed Failure envelope: exactly the keys
{success=false, error, details, timestamp}. -/
def isFailureE (r : Response) : Prop :=
  r.success = false ∧ r.data = none ∧ r.message = none ∧
    (∃ e, r.error = some e) ∧ (∃ d, r.details = some d)

/-- A Failure envelope whose error string mentions the given path. -/
def failsMentioning (r : Response) (p : String) : Prop :=
  r.success = false ∧ ∃ pre post, r.error = some (pre ++ p ++ post)

/-- The empty filesystem. -/
def fsEmpty : FS :=
  ⟨[]⟩

/-- A two-column, one-row dataframe used as concrete witness data. -/
def dfW : DataFrame :=
  ⟨["a", "b"], [[.num 1, .num 2]]⟩

/-- A concrete regular file. -/
def fileW : File :=
  ⟨[104, 105], "c0", "m0", false⟩

/-- A filesystem holding one CSV dataset. -/
def fsW : FS :=
  ⟨[("w.csv", fileW)]⟩

/-- A concrete successful HTTP response. -/
def respW : HttpResp :=
  ⟨"pagina", [1, 2, 3], [("content-type", "text/plain")],
   .ok (.obj [("total_count", .num 0), ("items", .arr [])])⟩

/-- Concrete library oracles for evaluating handlers on witness inputs. -/
def trivLibs : Libs where
  decodeUtf8 := fun _ => .ok ("hola mundo")
  encodeText := fun s _ => .ok (s.data.map Char.toNat)
  readCsv := fun _ => .ok dfW
  readExcel := fun _ => .ok dfW
  readJsonDf := fun _ => .ok dfW
  extractPdf := fun _ => .ok ("texto pdf")
  dtypesDict := fun _ => .obj []
  numericDescribe := fun _ => none
  isnullDict := fun _ => .obj []
  headRecords := fun _ => .arr []
  tailRecords := fun _ => .arr []
  pivotTable := fun _ _ _ _ _ _ => .ok ⟨.obj [], fun _ => .obj [], (1, 1)⟩
  pxBar := fun _ _ _ _ => .ok ⟨0⟩
  pxLine := fun _ _ _ _ => .ok ⟨0⟩
  pxScatter := fun _ _ _ _ => .ok ⟨0⟩
  pxPie := fun _ _ _ _ => .ok ⟨0⟩
  pxHistogram := fun _ _ _ => .ok ⟨0⟩
  pxBox := fun _ _ _ _ => .ok ⟨0⟩
  updateLayout := fun f _ _ => f
  renderHtml := fun _ => [60]
  httpGet := fun _ _ => .ok respW
  soupText := fun _ => "texto"
  soupSelect := fun _ _ => .ok ["a"]
  soupTitle := fun _ => none
  toJson := fun _ _ => .ok [65]
  toCsv := fun _ _ => .ok [65]
  toExcel := fun _ _ => .ok [65]
  toParquet := fun _ _ => .ok [65]

/-- An alternative pivot oracle, used to exhibit that the pivot is never
consulted on the invalid-aggregation path. -/
def pivotAlt : DataFrame → List String → List String → String → List String →
    Option Int → Except Exc PivotResult :=
  fun _ _ _ _ _ _ => .error (.other ("pivot llamado"))

/-- An alternative HTTP oracle, used to exhibit that no download is
issued on the refused-overwrite path. -/
def httpAlt : String → List (String × JVal) → Except Exc HttpResp :=
  fun _ _ => .error (.other ("descarga emitida"))

/-- A page text longer than the 10000-character cap. -/
def bigStr : String :=
  ⟨List.replicate 10001 (Char.ofNat 97)⟩

/-- Library oracles whose page text exceeds the truncation cap. -/
def ceLibs : Libs :=
  { trivLibs with soupText := fun _ => bigStr }

/-- Helper: the try/except wrapper yields either a success envelope built
by the formatter or a failure envelope with empty details, never anything
else, and never lets the exception escape. -/
theorem runTool_cases (now : String) (fs : FS) (body : Except Exc (JVal × String × FS)) :
    (∃ d m fs2, runTool now fs body = (ResponseFormatter.success d m now, fs2)) ∨
    (∃ e fs2, runTool now fs body = (ResponseFormatter.error e "" now, fs2)) := by
  cases body with
  | ok p =>
    obtain ⟨d, m, fs2⟩ := p
    exact Or.inl ⟨d, m, fs2, rfl⟩
  | error e => exact Or.inr ⟨Exc.str e, fs, rfl⟩

/-- Helper: every dispatched tool call lands in one of the two formatter
shapes. -/
theorem dispatch_cases (libs : Libs) (now : String) (call : ToolCall) (fs : FS) :
    (∃ d m fs2, dispatch libs now call fs = (ResponseFormatter.success d m now, fs2)) ∨
    (∃ e fs2, dispatch libs now call fs = (ResponseFormatter.error e "" now, fs2)) := by
  cases call <;>
    simp only [dispatch, analizar_archivo, crear_archivo, leer_documento, analizar_datos,
      tabla_dinamica_avanzada, crear_visualizacion, buscar_repositorios_github,
      extraer_contenido_web, descargar_archivo_web, convertir_formato_datos] <;>
    exact runTool_cases now fs _

/-- C1: every tool handler, on every input (the library oracles may fail
arbitrarily), returns exactly one ResponseEnvelope: a Success record
{success=true, data, message, timestamp} or a Failure record
{success=false, error, details, timestamp}, never both and never neither;
being a total function into `Response`, no exception passes the handler
boundary. -/
theorem C1_exactly_one_envelope (libs : Libs) (now : String) (call : ToolCall) (fs : FS) :
    Xor' (isSuccessE (dispatch libs now call fs).1)
      (isFailureE (dispatch libs now call fs).1) := by
  rcases dispatch_cases libs now call fs with ⟨d, m, fs2, h⟩ | ⟨e, fs2, h⟩ <;>
    rw [h] <;>
    simp [Xor', isSuccessE, isFailureE, ResponseFormatter.success, ResponseFormatter.error]

/-- C10: every Failure envelope any handler produces carries the empty
string in its `details` field, since every error path reaches the
formatter with `details` left at its default. -/
theorem C10_failure_details_empty (libs : Libs) (now : String) (call : ToolCall) (fs : FS)
    (h : (dispatch libs now call fs).1.success = false) :
    (dispatch libs now call fs).1.details = some "" := by
  rcases dispatch_cases libs now call fs with ⟨d, m, fs2, hh⟩ | ⟨e, fs2, hh⟩
  · rw [hh] at h
    exact absurd h (by simp [ResponseFormatter.success])
  · rw [hh]
    rfl

/-- Witness for C10: a concrete failing call (missing file) whose Failure
envelope carries empty details. -/
theorem C10_witness :
    (dispatch trivLibs ("t0") (ToolCall.analizarArchivo ("no.txt")) fsEmpty).1.success
      = false ∧
    (dispatch trivLibs ("t0") (ToolCall.analizarArchivo ("no.txt")) fsEmpty).1.details
      = some "" :=
  ⟨rfl, C10_failure_details_empty trivLibs ("t0") (ToolCall.analizarArchivo ("no.txt"))
    fsEmpty rfl⟩

/-- Helper: a path that does not exist has no filesystem entry. -/
theorem find_eq_none_of_not_exists {fs : FS} {p : String} (h : fs.exists p = false) :
    fs.find? p = none := by
  unfold FS.exists at h
  cases hf : fs.find? p with
  | none => rfl
  | some f =>
    rw [hf] at h
    exact absurd h (by simp)

/-- C2: each handler that takes an input path, invoked on a path with no
filesystem entry, returns a Failure envelope whose error string mentions
that path; no exception escapes (the handlers are total). -/
theorem C2_missing_path (libs : Libs) (now : String) (fs : FS) (p : String)
    (L : Int) (inc : Bool) (ic cc ag : StrOrList) (vc : String) (fv : Option Int)
    (tipo : String) (config : ChartConfig) (fmt : String)
    (opc : Option (List (String × JVal)))
    (h : fs.exists p = false) :
    failsMentioning (analizar_archivo libs now p fs).1 p ∧
    failsMentioning (leer_documento libs now p L fs).1 p ∧
    failsMentioning (analizar_datos libs now p inc fs).1 p ∧
    failsMentioning (tabla_dinamica_avanzada libs now p ic cc vc ag fv fs).1 p ∧
    failsMentioning (crear_visualizacion libs now p tipo config fs).1 p ∧
    failsMentioning (convertir_formato_datos libs now p fmt opc fs).1 p := by
  have hf : fs.find? p = none := find_eq_none_of_not_exists h
  refine ⟨?_, ?_, ?_, ?_, ?_, ?_⟩ <;>
    simp only [analizar_archivo, leer_documento, analizar_datos, tabla_dinamica_avanzada,
      crear_visualizacion, convertir_formato_datos, read_dataframe, hf, runTool,
      failsMentioning, ResponseFormatter.error] <;>
    exact ⟨trivial, "El archivo ", " no existe", rfl⟩

/-- Witness for C2: the six handlers on a concrete missing path. -/
theorem C2_witness :
    FS.exists fsEmpty ("falta.csv") = false ∧
    failsMentioning (analizar_archivo trivLibs ("t0") ("falta.csv") fsEmpty).1
      ("falta.csv") ∧
    failsMentioning (leer_documento trivLibs ("t0") ("falta.csv") 10000 fsEmpty).1
      ("falta.csv") ∧
    failsMentioning (analizar_datos trivLibs ("t0") ("falta.csv") true fsEmpty).1
      ("falta.csv") ∧
    failsMentioning (tabla_dinamica_avanzada trivLibs ("t0") ("falta.csv")
      (.one ("a")) (.one ("b")) ("v") (.one ("mean")) none fsEmpty).1 ("falta.csv") ∧
    failsMentioning (crear_visualizacion trivLibs ("t0") ("falta.csv") ("bar")
      ⟨some ["a", "b"], none, none, []⟩ fsEmpty).1 ("falta.csv") ∧
    failsMentioning (convertir_formato_datos trivLibs ("t0") ("falta.csv") ("csv")
      none fsEmpty).1 ("falta.csv") :=
  ⟨rfl,
   C2_missing_path trivLibs ("t0") fsEmpty ("falta.csv") 10000 true (.one ("a"))
     (.one ("b")) (.one ("mean")) ("v") none ("bar") ⟨some ["a", "b"], none, none, []⟩
     ("csv") none rfl⟩

/-- Helper: reading a dataframe never consults the pivot oracle. -/
theorem read_dataframe_pivot_indep (libs : Libs)
    (g : DataFrame → List String → List String → String → List String → Option Int →
      Except Exc PivotResult) (fs : FS) (p : String) :
    read_dataframe { libs with pivotTable := g } fs p = read_dataframe libs fs p :=
  rfl

/-- C3: on a readable dataset, an aggregation argument containing a name
outside the allow-list makes tabla_dinamica_avanzada return a Failure
envelope, and the pivot oracle is never invoked: the result is unchanged
when the pivot oracle is replaced by an arbitrary one. -/
theorem C3_invalid_aggfunc (libs : Libs)
    (g : DataFrame → List String → List String → String → List String → Option Int →
      Except Exc PivotResult)
    (now : String) (fs : FS) (ruta : String) (ic cc : StrOrList) (vc : String)
    (ag : StrOrList) (fv : Option Int) (df : DataFrame)
    (hread : read_dataframe libs fs ruta = .ok df)
    (hbad : ∃ f, f ∈ normalizeSL ag ∧ f ∉ funciones_validas) :
    (tabla_dinamica_avanzada libs now ruta ic cc vc ag fv fs).1.success = false ∧
    tabla_dinamica_avanzada { libs with pivotTable := g } now ruta ic cc vc ag fv fs =
      tabla_dinamica_avanzada libs now ruta ic cc vc ag fv fs := by
  obtain ⟨f0, hmem, hnv⟩ := hbad
  have hfilter :
      (normalizeSL ag).filter (fun f => ¬ funciones_validas.contains f) ≠ [] := by
    have hin : f0 ∈ (normalizeSL ag).filter (fun f => ¬ funciones_validas.contains f) := by
      refine List.mem_filter.mpr ⟨hmem, ?_⟩
      simpa using hnv
    exact List.ne_nil_of_mem hin
  have hread2 : read_dataframe { libs with pivotTable := g } fs ruta = .ok df := hread
  cases hval : validate_columns df (normalizeSL ic ++ normalizeSL cc ++ [vc]) with
  | error e =>
    refine ⟨?_, ?_⟩
    · simp only [tabla_dinamica_avanzada, hread, hval, runTool]
      rfl
    · simp only [tabla_dinamica_avanzada, hread, hread2, hval, runTool]
  | ok u =>
    cases u
    refine ⟨?_, ?_⟩
    · simp only [tabla_dinamica_avanzada, hread, hval, runTool, if_neg hfilter]
      rfl
    · simp only [tabla_dinamica_avanzada, hread, hread2, hval, runTool, if_neg hfilter]

/-- Witness for C3: a concrete readable CSV and the invalid aggregation
name `promedio`. -/
theorem C3_witness :
    read_dataframe trivLibs fsW ("w.csv") = .ok dfW ∧
    (("promedio") ∈ normalizeSL (.one ("promedio")) ∧
      ("promedio") ∉ funciones_validas) ∧
    (tabla_dinamica_avanzada trivLibs ("t0") ("w.csv") (.one ("a")) (.one ("b"))
      ("b") (.one ("promedio")) none fsW).1.success = false ∧
    tabla_dinamica_avanzada { trivLibs with pivotTable := pivotAlt } ("t0") ("w.csv")
        (.one ("a")) (.one ("b")) ("b") (.one ("promedio")) none fsW =
      tabla_dinamica_avanzada trivLibs ("t0") ("w.csv") (.one ("a")) (.one ("b"))
        ("b") (.one ("promedio")) none fsW :=
  ⟨rfl, ⟨by decide, by decide⟩,
   C3_invalid_aggfunc trivLibs pivotAlt ("t0") fsW ("w.csv") (.one ("a")) (.one ("b"))
     ("b") (.one ("promedio")) none dfW rfl
     ⟨"promedio", by decide, by decide⟩⟩

/-- C4: on a readable dataset with valid columns, a chart kind outside
the allow-list makes crear_visualizacion fail and leaves the filesystem
exactly as it was: no output file is created and none is modified. -/
theorem C4_invalid_chart_kind (libs : Libs) (now : String) (fs : FS)
    (ruta tipo : String) (config : ChartConfig) (df : DataFrame) (cols : List String)
    (hread : read_dataframe libs fs ruta = .ok df)
    (hcols : config.columnas = some cols)
    (hval : validate_columns df cols = .ok ())
    (htipo : tipo ∉ tipos_soportados) :
    (crear_visualizacion libs now ruta tipo config fs).1.success = false ∧
    (crear_visualizacion libs now ruta tipo config fs).2 = fs := by
  simp only [tipos_soportados, List.mem_cons, List.not_mem_nil, or_false, not_or]
    at htipo
  obtain ⟨h1, h2, h3, h4, h5, h6⟩ := htipo
  simp only [crear_visualizacion, hread, hcols, hval, create_plotly_figure,
    if_neg h1, if_neg h2, if_neg h3, if_neg h4, if_neg h5, if_neg h6, runTool]
  exact ⟨by trivial, by trivial⟩

/-- Witness for C4: the unsupported chart kind `donut` on a concrete
readable dataset with existing columns. -/
theorem C4_witness :
    read_dataframe trivLibs fsW ("w.csv") = .ok dfW ∧
    validate_columns dfW ["a", "b"] = .ok () ∧
    ("donut") ∉ tipos_soportados ∧
    (crear_visualizacion trivLibs ("t0") ("w.csv") ("donut")
      ⟨some ["a", "b"], none, none, []⟩ fsW).1.success = false ∧
    (crear_visualizacion trivLibs ("t0") ("w.csv") ("donut")
      ⟨some ["a", "b"], none, none, []⟩ fsW).2 = fsW :=
  ⟨rfl, rfl, by decide,
   C4_invalid_chart_kind trivLibs ("t0") fsW ("w.csv") ("donut")
     ⟨some ["a", "b"], none, none, []⟩ dfW ["a", "b"] rfl rfl rfl (by decide)⟩

/-- C5: downloading onto an existing destination without the overwrite
flag fails, changes nothing on disk, and issues no download (the HTTP
oracle is never consulted); with the flag set and the download
succeeding, the destination is replaced by the downloaded bytes and the
Success data reports the downloaded byte count. -/
theorem C5_download_overwrite :
    (∀ (libs : Libs) (g : String → List (String × JVal) → Except Exc HttpResp)
       (now url dest : String) (fs : FS),
      fs.exists dest = true →
      (descargar_archivo_web libs now url dest false fs).1.success = false ∧
      (descargar_archivo_web libs now url dest false fs).2 = fs ∧
      descargar_archivo_web { libs with httpGet := g } now url dest false fs =
        descargar_archivo_web libs now url dest false fs) ∧
    (∀ (libs : Libs) (now url dest : String) (fs : FS) (resp : HttpResp),
      fs.exists dest = true →
      libs.httpGet url [] = .ok resp →
      (descargar_archivo_web libs now url dest true fs).1.success = true ∧
      (descargar_archivo_web libs now url dest true fs).2 =
        fs.insert dest ⟨resp.content, now, now, false⟩ ∧
      (descargar_archivo_web libs now url dest true fs).2.find? dest =
        some ⟨resp.content, now, now, false⟩ ∧
      Response.dataField (descargar_archivo_web libs now url dest true fs).1
        ("tamaño_bytes") = some (.num (resp.content.length : Int))) := by
  constructor
  · intro libs g now url dest fs hex
    refine ⟨?_, ?_, ?_⟩ <;>
      simp [descargar_archivo_web, hex, runTool, ResponseFormatter.error, Exc.str]
  · intro libs now url dest fs resp hex hget
    refine ⟨?_, ?_, ?_, ?_⟩ <;>
      simp [descargar_archivo_web, hex, hget, runTool, ResponseFormatter.success,
        Response.dataField, jObjGet, FS.insert, FS.find?]

/-- Witness for C5: a concrete existing destination, refused without the
flag and replaced with the downloaded bytes with it. -/
theorem C5_witness :
    FS.exists fsW ("w.csv") = true ∧
    trivLibs.httpGet ("http://x") [] = .ok respW ∧
    (descargar_archivo_web trivLibs ("t0") ("http://x") ("w.csv") false fsW).1.success
      = false ∧
    (descargar_archivo_web trivLibs ("t0") ("http://x") ("w.csv") false fsW).2 = fsW ∧
    descargar_archivo_web { trivLibs with httpGet := httpAlt } ("t0") ("http://x")
        ("w.csv") false fsW =
      descargar_archivo_web trivLibs ("t0") ("http://x") ("w.csv") false fsW ∧
    (descargar_archivo_web trivLibs ("t0") ("http://x") ("w.csv") true fsW).2.find?
      ("w.csv") = some ⟨respW.content, "t0", "t0", false⟩ ∧
    Response.dataField
      (descargar_archivo_web trivLibs ("t0") ("http://x") ("w.csv") true fsW).1
      ("tamaño_bytes") = some (.num 3) :=
  ⟨rfl, rfl,
   (C5_download_overwrite.1 trivLibs httpAlt ("t0") ("http://x") ("w.csv") fsW rfl).1,
   (C5_download_overwrite.1 trivLibs httpAlt ("t0") ("http://x") ("w.csv") fsW rfl).2.1,
   (C5_download_overwrite.1 trivLibs httpAlt ("t0") ("http://x") ("w.csv") fsW rfl).2.2,
   (C5_download_overwrite.2 trivLibs ("t0") ("http://x") ("w.csv") fsW respW rfl
     rfl).2.2.1,
   (C5_download_overwrite.2 trivLibs ("t0") ("http://x") ("w.csv") fsW respW rfl
     rfl).2.2.2⟩

/-- Helper: taking the first n characters yields min(total, n) of them. -/
theorem pyTake_length (s : String) (n : Nat) : (pyTake s n).length = min s.length n := by
  show (s.data.take n).length = min s.length n
  rw [List.length_take, Nat.min_comm]
  rfl

/-- C7: for an existing document whose content the supported-extension
reader yields (plain-text-like or PDF) and a non-negative limit L,
leer_documento succeeds with the first min(length, L) characters, reports
that returned length, and flags truncation exactly when the total length
exceeds L; an unsupported extension yields a Failure envelope. -/
theorem C7_leer_documento (libs : Libs) (now : String) (ruta : String) (L : Int)
    (fs : FS) (f : File) (hfind : fs.find? ruta = some f) :
    (∀ s, leer_contenido libs ruta f = .ok s → 0 ≤ L →
      (leer_documento libs now ruta L fs).1.success = true ∧
      Response.dataField (leer_documento libs now ruta L fs).1 ("contenido") =
        some (.str (pyTake s L.toNat)) ∧
      Response.dataField (leer_documento libs now ruta L fs).1 ("longitud_retornada") =
        some (.num ((pyTake s L.toNat).length : Int)) ∧
      Response.dataField (leer_documento libs now ruta L fs).1 ("fue_truncado") =
        some (.bool (decide ((s.length : Int) > L))) ∧
      (pyTake s L.toNat).length = min s.length L.toNat) ∧
    (strLower (Path.suffix ruta) ∉
        ([".pdf", ".txt", ".md", ".csv", ".json", ".py"] : List String) →
      (leer_documento libs now ruta L fs).1.success = false) := by
  constructor
  · intro s hs hL
    have hslice : pySliceTo s L = pyTake s L.toNat := by
      rw [pySliceTo, if_pos hL]
    have hres : leer_documento libs now ruta L fs =
        (ResponseFormatter.success (.obj
          [("contenido", .str (pyTake s L.toNat)),
           ("longitud_total", .num (s.length : Int)),
           ("longitud_retornada", .num ((pyTake s L.toNat).length : Int)),
           ("fue_truncado", .bool (decide ((s.length : Int) > L)))])
          ("Documento " ++ Path.name ruta ++ " leído exitosamente") now, fs) := by
      simp only [leer_documento, hfind, hs, runTool, hslice]
    rw [hres]
    exact ⟨rfl, rfl, rfl, rfl, pyTake_length s L.toNat⟩
  · intro hns
    simp only [List.mem_cons, List.not_mem_nil, or_false, not_or] at hns
    obtain ⟨h1, h2, h3, h4, h5, h6⟩ := hns
    simp [leer_documento, hfind, leer_contenido, h1, h2, h3, h4, h5, h6, runTool,
      ResponseFormatter.error]

/-- Witness for C7: a concrete text document of length 10 read with
limit 4: the returned content is its first 4 characters and the
truncation flag is set. -/
theorem C7_witness :
    fsW.find? ("w.csv") = some fileW ∧
    leer_contenido trivLibs ("w.csv") fileW = .ok ("hola mundo") ∧
    (0 : Int) ≤ 4 ∧
    (leer_documento trivLibs ("t0") ("w.csv") 4 fsW).1.success = true ∧
    Response.dataField (leer_documento trivLibs ("t0") ("w.csv") 4 fsW).1 ("contenido")
      = some (.str ("hola")) ∧
    Response.dataField (leer_documento trivLibs ("t0") ("w.csv") 4 fsW).1
      ("longitud_retornada") = some (.num 4) ∧
    Response.dataField (leer_documento trivLibs ("t0") ("w.csv") 4 fsW).1
      ("fue_truncado") = some (.bool true) := by
  have h := (C7_leer_documento trivLibs ("t0") ("w.csv") 4 fsW fileW rfl).1
    ("hola mundo") rfl (by decide)
  exact ⟨rfl, rfl, by decide, h.1, h.2.1, h.2.2.1, h.2.2.2.1⟩

/-- Counterexample to C6: a page whose text has 10001 characters is
truncated to the 10000-character cap by extraer_contenido_web, yet the
Success data carries no truncated-length field and no truncation flag —
only the original length. -/
theorem C6_counterexample :
    (extraer_contenido_web ceLibs ("t0") ("http://e") none fsEmpty).1.success = true ∧
    Response.dataField (extraer_contenido_web ceLibs ("t0") ("http://e") none
      fsEmpty).1 ("longitud_total") = some (.num 10001) ∧
    (10000 : Int) < 10001 ∧
    Response.dataField (extraer_contenido_web ceLibs ("t0") ("http://e") none
      fsEmpty).1 ("fue_truncado") = none ∧
    Response.dataField (extraer_contenido_web ceLibs ("t0") ("http://e") none
      fsEmpty).1 ("longitud_retornada") = none := by
  have hget : ceLibs.httpGet ("http://e") [] = .ok respW := rfl
  have hsoup : ceLibs.soupText respW.text = bigStr := rfl
  have htitle : ceLibs.soupTitle respW.text = none := rfl
  have hlen : bigStr.length = 10001 := by
    show (List.replicate 10001 (Char.ofNat 97)).length = 10001
    rw [List.length_replicate]
  have hlenI : (bigStr.length : Int) = 10001 := by
    rw [hlen]
    rfl
  have hres : extraer_contenido_web ceLibs ("t0") ("http://e") none fsEmpty =
      (ResponseFormatter.success (.obj
        [("url", .str ("http://e")),
         ("contenido", .str (pyTake bigStr 10000)),
         ("longitud_total", .num (bigStr.length : Int)),
         ("titulo", .str ("Sin título")),
         ("selector_usado", .null)])
        ("Contenido web extraído exitosamente") ("t0"), fsEmpty) := by
    simp only [extraer_contenido_web, hget, hsoup, htitle, runTool]
  rw [hres, hlenI]
  exact ⟨rfl, rfl, by decide, rfl, rfl⟩

/-- C6 as amended: leer_documento reports the original length, the
returned length and a truncation flag; extraer_contenido_web truncates to
the 10000-character cap but reports only the original length alongside
the truncated content — it has no truncated-length field and no
truncation flag. -/
theorem C6_truncation_reporting :
    (∀ (libs : Libs) (now ruta : String) (L : Int) (fs : FS) (f : File) (s : String),
      fs.find? ruta = some f →
      leer_contenido libs ruta f = .ok s →
      Response.dataField (leer_documento libs now ruta L fs).1 ("longitud_total") =
        some (.num (s.length : Int)) ∧
      Response.dataField (leer_documento libs now ruta L fs).1 ("longitud_retornada") =
        some (.num ((pySliceTo s L).length : Int)) ∧
      Response.dataField (leer_documento libs now ruta L fs).1 ("fue_truncado") =
        some (.bool (decide ((s.length : Int) > L)))) ∧
    (∀ (libs : Libs) (now url : String) (fs : FS) (resp : HttpResp),
      libs.httpGet url [] = .ok resp →
      (extraer_contenido_web libs now url none fs).1.success = true ∧
      Response.dataField (extraer_contenido_web libs now url none fs).1 ("contenido") =
        some (.str (pyTake (libs.soupText resp.text) 10000)) ∧
      Response.dataField (extraer_contenido_web libs now url none fs).1
        ("longitud_total") = some (.num ((libs.soupText resp.text).length : Int)) ∧
      Response.dataField (extraer_contenido_web libs now url none fs).1
        ("fue_truncado") = none ∧
      Response.dataField (extraer_contenido_web libs now url none fs).1
        ("longitud_retornada") = none) := by
  constructor
  · intro libs now ruta L fs f s hfind hs
    have hres : leer_documento libs now ruta L fs =
        (ResponseFormatter.success (.obj
          [("contenido", .str (pySliceTo s L)),
           ("longitud_total", .num (s.length : Int)),
           ("longitud_retornada", .num ((pySliceTo s L).length : Int)),
           ("fue_truncado", .bool (decide ((s.length : Int) > L)))])
          ("Documento " ++ Path.name ruta ++ " leído exitosamente") now, fs) := by
      simp only [leer_documento, hfind, hs, runTool]
    rw [hres]
    exact ⟨rfl, rfl, rfl⟩
  · intro libs now url fs resp hget
    have hres : extraer_contenido_web libs now url none fs =
        (ResponseFormatter.success (.obj
          [("url", .str url),
           ("contenido", .str (pyTake (libs.soupText resp.text) 10000)),
           ("longitud_total", .num ((libs.soupText resp.text).length : Int)),
           ("titulo",
            match libs.soupTitle resp.text with
            | none => .str ("Sin título")
            | some none => .null
            | some (some t) => .str t),
           ("selector_usado", .null)])
          ("Contenido web extraído exitosamente") now, fs) := by
      simp only [extraer_contenido_web, hget, runTool]
    rw [hres]
    exact ⟨rfl, rfl, rfl, rfl, rfl⟩

/-- Witness for the amended C6: both handlers on concrete inputs. -/
theorem C6_witness :
    fsW.find? ("w.csv") = some fileW ∧
    leer_contenido trivLibs ("w.csv") fileW = .ok ("hola mundo") ∧
    Response.dataField (leer_documento trivLibs ("t0") ("w.csv") 4 fsW).1
      ("longitud_total") = some (.num 10) ∧
    trivLibs.httpGet ("http://e") [] = .ok respW ∧
    Response.dataField (extraer_contenido_web trivLibs ("t0") ("http://e") none
      fsEmpty).1 ("fue_truncado") = none := by
  have h1 := (C6_truncation_reporting.1 trivLibs ("t0") ("w.csv") 4 fsW fileW
    ("hola mundo") rfl rfl).1
  have h2 := (C6_truncation_reporting.2 trivLibs ("t0") ("http://e") fsEmpty respW
    rfl).2.2.2.1
  exact ⟨rfl, rfl, h1, rfl, h2⟩

/-- Helper: rounding a non-negative rational half-to-even is
non-negative. -/
theorem rhe_nonneg (q : Rat) (h : 0 ≤ q) : 0 ≤ rhe q := by
  have hf : (0 : Int) ≤ ⌊q⌋ := Int.floor_nonneg.mpr h
  unfold rhe
  split_ifs <;> omega

/-- Helper: the fixed-point formatter renders an integer part and one
digit whose combination is the half-even rounding of ten times the
value. -/
theorem formatFixed1_digits (q : Rat) (hq : 0 ≤ q) :
    ∃ a b : Int, 0 ≤ a ∧ 0 ≤ b ∧ b < 10 ∧
      formatFixed1 q = toString a ++ "." ++ toString b ∧
      a * 10 + b = rhe (q * 10) := by
  have h0 : (0 : Int) ≤ rhe (q * 10) := rhe_nonneg _ (mul_nonneg hq (by norm_num))
  refine ⟨rhe (q * 10) / 10, rhe (q * 10) % 10, ?_, ?_, ?_, rfl, ?_⟩
  · exact Int.ediv_nonneg h0 (by norm_num)
  · exact Int.emod_nonneg _ (by norm_num)
  · exact Int.emod_lt_of_pos _ (by norm_num)
  · omega

/-- C8: the file-size formatter renders 0 bytes as `0.0 B`, 1536 bytes
as `1.5 KB` and 1073741824 bytes as `1.0 GB`; and for every byte count
the output is an integer part, a dot, exactly one digit, a space and one
of the units B/KB/MB/GB/TB, where the digits render the byte count
divided by 1024 to the power of the unit index. -/
theorem C8_format_file_size :
    format_file_size 0 = "0.0 B" ∧
    format_file_size 1536 = "1.5 KB" ∧
    format_file_size 1073741824 = "1.0 GB" ∧
    (∀ n : Nat, ∃ k : Nat, k < 5 ∧ ∃ a b : Int, 0 ≤ a ∧ 0 ≤ b ∧ b < 10 ∧
      format_file_size n =
        toString a ++ "." ++ toString b ++ " " ++
          (["B", "KB", "MB", "GB", "TB"].getD k "") ∧
      a * 10 + b = rhe ((n : Rat) / 1024 ^ k * 10)) := by
  refine ⟨?_, ?_, ?_, ?_⟩
  · norm_num [format_file_size, formatLoop, formatFixed1, rhe]
    rfl
  · norm_num [format_file_size, formatLoop, formatFixed1, rhe]
    rfl
  · norm_num [format_file_size, formatLoop, formatFixed1, rhe]
    rfl
  · intro n
    have hn : (0 : Rat) ≤ (n : Rat) := Nat.cast_nonneg n
    by_cases h0 : (n : Rat) < 1024
    · obtain ⟨a, b, ha, hb, hb10, hfmt, hsum⟩ := formatFixed1_digits ((n : Rat)) hn
      refine ⟨0, by norm_num, a, b, ha, hb, hb10, ?_, ?_⟩
      · simp only [format_file_size, formatLoop]
        rw [if_pos h0, hfmt]
        rfl
      · rw [pow_zero, div_one]
        exact hsum
    · by_cases h1 : (n : Rat) / 1024 < 1024
      · obtain ⟨a, b, ha, hb, hb10, hfmt, hsum⟩ :=
          formatFixed1_digits ((n : Rat) / 1024) (div_nonneg hn (by norm_num))
        refine ⟨1, by norm_num, a, b, ha, hb, hb10, ?_, ?_⟩
        · simp only [format_file_size, formatLoop]
          rw [if_neg h0, if_pos h1, hfmt]
          rfl
        · rw [pow_one]
          exact hsum
      · by_cases h2 : (n : Rat) / 1024 / 1024 < 1024
        · obtain ⟨a, b, ha, hb, hb10, hfmt, hsum⟩ :=
            formatFixed1_digits ((n : Rat) / 1024 / 1024)
              (div_nonneg (div_nonneg hn (by norm_num)) (by norm_num))
          have e2 : (n : Rat) / 1024 / 1024 = (n : Rat) / 1024 ^ 2 := by
            rw [div_div]
            norm_num
          refine ⟨2, by norm_num, a, b, ha, hb, hb10, ?_, ?_⟩
          · simp only [format_file_size, formatLoop]
            rw [if_neg h0, if_neg h1, if_pos h2, hfmt]
            rfl
          · rw [← e2]
            exact hsum
        · by_cases h3 : (n : Rat) / 1024 / 1024 / 1024 < 1024
          · obtain ⟨a, b, ha, hb, hb10, hfmt, hsum⟩ :=
              formatFixed1_digits ((n : Rat) / 1024 / 1024 / 1024)
                (div_nonneg (div_nonneg (div_nonneg hn (by norm_num)) (by norm_num))
                  (by norm_num))
            have e3 : (n : Rat) / 1024 / 1024 / 1024 = (n : Rat) / 1024 ^ 3 := by
              rw [div_div, div_div]
              norm_num
            refine ⟨3, by norm_num, a, b, ha, hb, hb10, ?_, ?_⟩
            · simp only [format_file_size, formatLoop]
              rw [if_neg h0, if_neg h1, if_neg h2, if_pos h3, hfmt]
              rfl
            · rw [← e3]
              exact hsum
          · obtain ⟨a, b, ha, hb, hb10, hfmt, hsum⟩ :=
              formatFixed1_digits ((n : Rat) / 1024 / 1024 / 1024 / 1024)
                (div_nonneg (div_nonneg (div_nonneg (div_nonneg hn (by norm_num))
                  (by norm_num)) (by norm_num)) (by norm_num))
            have e4 : (n : Rat) / 1024 / 1024 / 1024 / 1024 = (n : Rat) / 1024 ^ 4 := by
              rw [div_div, div_div, div_div]
              norm_num
            refine ⟨4, by norm_num, a, b, ha, hb, hb10, ?_, ?_⟩
            · show format_file_size n =
                toString a ++ "." ++ toString b ++ " " ++ ("TB")
              rw [String.append_assoc (toString a ++ "." ++ toString b) (" ") ("TB")]
              simp only [format_file_size, formatLoop]
              rw [if_neg h0, if_neg h1, if_neg h2, if_neg h3, hfmt]
              rfl
            · rw [← e4]
              exact hsum

/-- Helper: the stem and extension of a path concatenate back to it. -/
theorem splitExt_append (p : String) : (splitExt p).1 ++ (splitExt p).2 = p := by
  have hsplit : extRun p ++ extRest p = p.data.reverse :=
    List.takeWhile_append_dropWhile _ _
  unfold splitExt
  cases hr : extRest p with
  | nil =>
    show String.mk (p.data ++ []) = String.mk p.data
    exact congrArg String.mk (List.append_nil _)
  | cons c r =>
    by_cases hc : c = Char.ofNat 46 ∧ extRun p ≠ [] ∧ stemSide r = true
    · simp only [if_pos hc]
      obtain ⟨hc1, -, -⟩ := hc
      show String.mk (r.reverse ++ (Char.ofNat 46 :: (extRun p).reverse)) =
        String.mk p.data
      refine congrArg String.mk ?_
      have h2 : p.data.reverse = extRun p ++ (c :: r) := by
        rw [← hr]
        exact hsplit.symm
      have h3 : p.data = (extRun p ++ (c :: r)).reverse := by
        rw [← h2, List.reverse_reverse]
      rw [h3, hc1]
      simp [List.reverse_append]
    · simp only [if_neg hc]
      show String.mk (p.data ++ []) = String.mk p.data
      exact congrArg String.mk (List.append_nil _)

/-- Helper: replacing the extension of a path by its own extension is the
identity. -/
theorem withSuffix_of_suffix (p ext : String) (h : Path.suffix p = ext) :
    Path.withSuffix p ext = p := by
  show (splitExt p).1 ++ ext = p
  rw [← h]
  exact splitExt_append p

/-- C9: when convertir_formato_datos writes an output, it writes it at
the input path with its extension replaced by the target format's
extension (and reports that path); hence when the input's own extension
already equals the target extension the input file is overwritten in
place. -/
theorem C9_convert_output_path (libs : Libs) (now : String) (fs : FS)
    (entrada formato : String) (opciones : Option (List (String × JVal)))
    (df : DataFrame) (bs : List Nat)
    (hread : read_dataframe libs fs entrada = .ok df)
    (hw : convert_write libs df formato
      (mergeOpts (defaultOpts formato)
        (match opciones with | some o => o | none => [])) = .ok bs) :
    (convertir_formato_datos libs now entrada formato opciones fs).2 =
      fs.insert (Path.withSuffix entrada ("." ++ formato)) ⟨bs, now, now, false⟩ ∧
    Response.dataField
      (convertir_formato_datos libs now entrada formato opciones fs).1
      ("archivo_salida") = some (.str (Path.withSuffix entrada ("." ++ formato))) ∧
    (Path.suffix entrada = "." ++ formato →
      (convertir_formato_datos libs now entrada formato opciones fs).2 =
        fs.insert entrada ⟨bs, now, now, false⟩) := by
  have hres : convertir_formato_datos libs now entrada formato opciones fs =
      (ResponseFormatter.success (.obj
        [("archivo_entrada", .str entrada),
         ("archivo_salida", .str (Path.withSuffix entrada ("." ++ formato))),
         ("formato_origen", .str (Path.suffix entrada)),
         ("formato_destino", .str ("." ++ formato)),
         ("filas_procesadas", .num (df.rows.length : Int))])
        ("Conversión a " ++ formato ++ " completada") now,
       fs.insert (Path.withSuffix entrada ("." ++ formato)) ⟨bs, now, now, false⟩) := by
    simp only [convertir_formato_datos, hread, hw, runTool]
  refine ⟨by rw [hres], by rw [hres]; rfl, ?_⟩
  intro hsuf
  rw [hres, withSuffix_of_suffix entrada ("." ++ formato) hsuf]

/-- Witness for C9: converting the CSV dataset `w.csv` to csv writes
back to `w.csv` itself. -/
theorem C9_witness :
    read_dataframe trivLibs fsW ("w.csv") = .ok dfW ∧
    Path.suffix ("w.csv") = "." ++ ("csv") ∧
    (convertir_formato_datos trivLibs ("t0") ("w.csv") ("csv") none fsW).2 =
      fsW.insert ("w.csv") ⟨[65], "t0", "t0", false⟩ ∧
    Response.dataField
      (convertir_formato_datos trivLibs ("t0") ("w.csv") ("csv") none fsW).1
      ("archivo_salida") = some (.str ("w.csv")) := by
  have h := C9_convert_output_path trivLibs ("t0") fsW ("w.csv") ("csv") none dfW
    [65] rfl rfl
  exact ⟨rfl, rfl, h.2.2 rfl, h.2.1⟩
